import Mathlib

/-!
Shallow embedding of the task-management backend (`src/server.js`,
`src/routes/tasks.js`): the bearer-token authorization gate and the
task CRUD handlers (listing with filtering / sorting / pagination,
create, update, delete), together with theorems settling the spec
claims about them.

Modelling conventions:
* The task table is a list of rows in storage order; a query with no
  `ORDER BY` clause returns rows in storage order.
* Timestamps are the `YYYY-MM-DD HH:MM:SS` strings the code writes, so
  lexicographic string order is chronological order.
* JavaScript `undefined` is `Option.none`; string truthiness is
  "present and non-empty".
* `jwt.verify` is an external collaborator, modelled as an oracle
  `verify : String → Option Nat` returning the embedded numeric user id
  on success.
* Following the shape the handler code itself relies on, a row query
  result is the list of matching rows (the code reads `result[0]` as
  the row list for listing and as the first row elsewhere; we model the
  data each access actually consumes).
-/

namespace NotionTasks

/-- Task row as stored in the `tasks` table. -/
structure Task where
  id : Nat
  title : String
  description : Option String
  status : String
  user_id : Nat
  created_at : String
  updated_at : String
deriving Repr, DecidableEq

/-- The task table: rows in storage order. -/
abbrev Db := List Task

/-- Error body shape `{code, error, message}` used by every error response. -/
structure ErrBody where
  code : Nat
  error : String
  message : String
deriving Repr, DecidableEq

/-! ### JavaScript string and number helpers -/

/-- JavaScript `s.split(sep)` for a one-character separator, on char lists:
splits into the (possibly empty) groups between separator occurrences. -/
def splitChar (sep : Char) : List Char → List (List Char)
  | [] => [[]]
  | c :: cs =>
    if c = sep then [] :: splitChar sep cs
    else
      match splitChar sep cs with
      | g :: gs => (c :: g) :: gs
      | [] => [[c]]

/-- Leading decimal digit run of a char list. -/
def takeDigits : List Char → List Char
  | [] => []
  | c :: cs => if c.isDigit then c :: takeDigits cs else []

/-- Value of a decimal digit run. -/
def digitsToNat (cs : List Char) : Nat :=
  cs.foldl (fun a c => a * 10 + (c.toNat - 48)) 0

/-- Leading hexadecimal digit run of a char list. -/
def takeHexDigits : List Char → List Char
  | [] => []
  | c :: cs =>
    if c.isDigit ∨ ('a' ≤ c ∧ c ≤ 'f') ∨ ('A' ≤ c ∧ c ≤ 'F') then c :: takeHexDigits cs
    else []

/-- Value of one hexadecimal digit char. -/
def hexDigitVal (c : Char) : Nat :=
  if c.isDigit then c.toNat - 48
  else if 'a' ≤ c ∧ c ≤ 'f' then c.toNat - 87
  else c.toNat - 55

/-- Value of a hexadecimal digit run. -/
def hexToNat (cs : List Char) : Nat :=
  cs.foldl (fun a c => a * 16 + hexDigitVal c) 0

/-- Digit run after an optional `0x` / `0X` marker: hexadecimal when the
marker is present, decimal otherwise; `none` when the run is empty (NaN). -/
def parseIntBody : List Char → Option Nat
  | '0' :: 'x' :: rest =>
    let ds := takeHexDigits rest
    if ds.isEmpty then none else some (hexToNat ds)
  | '0' :: 'X' :: rest =>
    let ds := takeHexDigits rest
    if ds.isEmpty then none else some (hexToNat ds)
  | cs =>
    let ds := takeDigits cs
    if ds.isEmpty then none else some (digitsToNat ds)

/-- JavaScript `parseInt(s)` (default radix): skip leading whitespace, read an
optional sign and the longest digit run (hexadecimal after `0x`); `none`
models `NaN`. -/
def parseIntJS (s : String) : Option Int :=
  let cs := s.data.dropWhile (fun c => c = ' ' ∨ c = '\t' ∨ c = '\n' ∨ c = '\r')
  match cs with
  | '-' :: rest => (parseIntBody rest).map (fun n => -(n : Int))
  | '+' :: rest => (parseIntBody rest).map (fun n => (n : Int))
  | rest => (parseIntBody rest).map (fun n => (n : Int))

/-- JavaScript `parseInt(q) || d` for an optional query parameter `q`:
`NaN` (including an absent parameter) and `0` are falsy and collapse to the
default `d`; every other parsed value — negative values included — is kept. -/
def jsIntOr (q : Option String) (d : Int) : Int :=
  match q with
  | none => d
  | some s =>
    match parseIntJS s with
    | none => d
    | some 0 => d
    | some n => n

/-- JavaScript truthiness of an optional string: present and non-empty. -/
def strTruthy : Option String → Bool
  | none => false
  | some s => s ≠ ""

/-! ### Authorization gate (`authenticateToken`, src/server.js lines 133-155) -/

/-- Outcome of the gate: a rejection response, or the request proceeds to the
handler with the decoded user id attached (`req.user`). -/
inductive AuthResult where
  | reject (body : ErrBody)
  | proceed (userId : Nat)
deriving Repr, DecidableEq

/-- Second element of `authHeader.split(' ')`, when the header is present:
the raw candidate token position the gate inspects. -/
def secondField (h : Option String) : Option (List Char) :=
  match h with
  | none => none
  | some s => (splitChar ' ' s.data).get? 1

/-- The token: `authHeader && authHeader.split(' ')[1]` — absent header, absent
second field, and empty second field are all falsy (no token). -/
def extractToken (h : Option String) : Option String :=
  match secondField h with
  | none => none
  | some [] => none
  | some (c :: cs) => some (String.mk (c :: cs))

/-- Body of the 401 response for a missing token. -/
def authMissingBody : ErrBody :=
  ⟨401, "Unauthorized", "Authentication token is required"⟩

/-- Body of the 403 response for a failed verification. -/
def authInvalidBody : ErrBody :=
  ⟨403, "Forbidden", "Invalid or expired token"⟩

/-- The gate: extract the token, 401 when absent, verify it (oracle for
`jwt.verify` under the process secret), 403 on failure, otherwise proceed
with the decoded user id. -/
def authenticateToken (verify : String → Option Nat) (h : Option String) : AuthResult :=
  match extractToken h with
  | none => AuthResult.reject authMissingBody
  | some t =>
    match verify t with
    | none => AuthResult.reject authInvalidBody
    | some uid => AuthResult.proceed uid

example : extractToken (some "Bearer tok") = some "tok" := by decide
example : extractToken (some "Bearer") = none := by decide
example : extractToken (some "Bearer  x") = none := by decide
example : extractToken none = none := by decide
example : parseIntJS "abc" = none := by decide
example : parseIntJS "-5" = some (-5) := by decide
example : parseIntJS "0" = some 0 := by decide
example : parseIntJS "12abc" = some 12 := by decide
example : parseIntJS "0x10" = some 16 := by decide
example : jsIntOr (some "-5") 1 = -5 := by decide
example : jsIntOr (some "0") 1 = 1 := by decide
example : jsIntOr (some "abc") 1 = 1 := by decide

/-! ### Task listing (`router.get('/')`, src/routes/tasks.js lines 5-84) -/

/-- The status enum checked by the handlers. -/
def statusEnum : List String := ["pending", "in_progress", "completed"]

/-- Condition under which the row query gains an `AND status = ?` clause:
`status && ['pending','in_progress','completed'].includes(status)`. -/
def rowFilterOk (status : Option String) : Bool :=
  strTruthy status && statusEnum.contains (status.getD "")

/-- The `ORDER BY` clause the listing builds: either a field with a
direction, or no clause at all. -/
inductive OrderBy where
  | noOrder
  | byField (field : String) (desc : Bool)
deriving Repr, DecidableEq

/-- Sort-field allow-list. -/
def sortFields : List String := ["title", "status", "created_at", "updated_at"]

/-- Order clause from the `sort` parameter: absent or empty (falsy) `sort`
defaults to `created_at DESC`; otherwise split on `:`, keep the clause only
when the field part is truthy and allow-listed (`DESC` exactly when the
direction part is the literal `desc`), else drop the clause entirely. -/
def buildOrder (sort : Option String) : OrderBy :=
  match sort with
  | none => OrderBy.byField "created_at" true
  | some s =>
    if s = "" then OrderBy.byField "created_at" true
    else
      let ps := splitChar ':' s.data
      let f : String := String.mk (ps.headD [])
      if f ≠ "" && sortFields.contains f then
        OrderBy.byField f ((ps.get? 1).map String.mk == some "desc")
      else OrderBy.noOrder

/-- SQL text of the row query, assembled exactly as the handler does. -/
def buildListQuery (status sort : Option String) : String :=
  let q := "SELECT * FROM tasks WHERE user_id = ?"
  let q := if rowFilterOk status then q ++ " AND status = ?" else q
  let q :=
    match buildOrder sort with
    | OrderBy.noOrder => q
    | OrderBy.byField f d => q ++ " ORDER BY " ++ f ++ (if d then " DESC" else " ASC")
  q ++ " LIMIT ? OFFSET ?"

/-- A bound SQL parameter. -/
inductive SqlParam where
  | pNat (n : Nat)
  | pStr (s : String)
  | pInt (i : Int)
deriving Repr, DecidableEq

/-- Bound parameters of the row query: the verified identity's user id first,
then the status value when the filter clause was added, then limit and
offset. -/
def buildListParams (uid : Nat) (status : Option String) (limit offset : Int) :
    List SqlParam :=
  let ps := [SqlParam.pNat uid]
  let ps := if rowFilterOk status then ps ++ [SqlParam.pStr (status.getD "")] else ps
  ps ++ [SqlParam.pInt limit, SqlParam.pInt offset]

/-- SQL text of the count query: the status clause is appended whenever the
status parameter is truthy — with no enum check, unlike the row query. -/
def buildCountQuery (status : Option String) : String :=
  "SELECT COUNT(*) as total FROM tasks WHERE user_id = ?" ++
    (if strTruthy status then " AND status = ?" else "")

/-- Bound parameters of the count query. -/
def buildCountParams (uid : Nat) (status : Option String) : List SqlParam :=
  if strTruthy status then [SqlParam.pNat uid, SqlParam.pStr (status.getD "")]
  else [SqlParam.pNat uid]

/-- Lexicographic codepoint order on char lists: the store's ordering of
text column values. -/
def charListLe : List Char → List Char → Bool
  | [], _ => true
  | _ :: _, [] => false
  | a :: as, b :: bs =>
    if a.toNat < b.toNat then true
    else if b.toNat < a.toNat then false
    else charListLe as bs

/-- String order used by the store (lexicographic by codepoint). -/
def strLe (s t : String) : Bool := charListLe s.data t.data

/-- Column value used when ordering by one of the allow-listed fields. -/
def fieldKey (f : String) (t : Task) : String :=
  if f = "title" then t.title
  else if f = "status" then t.status
  else if f = "created_at" then t.created_at
  else t.updated_at

/-- Comparison realizing `ORDER BY f ASC` / `ORDER BY f DESC` on rows. -/
def taskLe (f : String) (desc : Bool) (a b : Task) : Bool :=
  if desc then strLe (fieldKey f b) (fieldKey f a)
  else strLe (fieldKey f a) (fieldKey f b)

/-- Execute an order clause on rows: no clause keeps storage order, a clause
sorts (stably) by the field in the requested direction. -/
def applyOrder : OrderBy → List Task → List Task
  | OrderBy.noOrder, l => l
  | OrderBy.byField f d, l => l.insertionSort (fun a b => taskLe f d a b = true)

/-- Rows matched by the row query: the requester's rows, status-filtered only
when the status parameter passed the enum check. -/
def ownedRows (db : Db) (uid : Nat) (status : Option String) : List Task :=
  db.filter (fun t =>
    t.user_id == uid && (!(rowFilterOk status) || t.status == status.getD ""))

/-- The `total` computed by the count query: the requester's rows, filtered by
the status parameter whenever it is truthy (no enum check). -/
def countTotal (db : Db) (uid : Nat) (status : Option String) : Nat :=
  (db.filter (fun t =>
    t.user_id == uid && (!(strTruthy status) || t.status == status.getD ""))).length

/-- Matched rows in response order (before the LIMIT/OFFSET window). -/
def listedRows (db : Db) (uid : Nat) (status sort : Option String) : List Task :=
  applyOrder (buildOrder sort) (ownedRows db uid status)

/-- `parseInt(req.query.page) || 1`. -/
def parsedPage (q : Option String) : Int := jsIntOr q 1

/-- `parseInt(req.query.limit) || 10`. -/
def parsedLimit (q : Option String) : Int := jsIntOr q 10

/-- Listing response: the 200 payload `{page, limit, total, tasks}` or an
error body. -/
inductive ListResult where
  | ok (page limit : Int) (total : Nat) (tasks : List Task)
  | err (code : Nat) (error message : String)
deriving Repr, DecidableEq

/-- Body of the listing 500 response. -/
def listFailMsg : String := "Failed to fetch tasks"

/-- GET /tasks for a verified identity `uid`: tolerant page/limit parsing,
`offset = (page - 1) * limit`, status filter and order clause as built above,
count before the window. A negative bound `LIMIT` or `OFFSET` makes the row
query throw in the store, surfacing as the handler's 500. -/
def listTasks (db : Db) (uid : Nat) (pageQ limitQ status sort : Option String) :
    ListResult :=
  let p := parsedPage pageQ
  let l := parsedLimit limitQ
  let off := (p - 1) * l
  if l < 0 ∨ off < 0 then ListResult.err 500 "Internal Server Error" listFailMsg
  else
    ListResult.ok p l (countTotal db uid status)
      (((listedRows db uid status sort).drop off.toNat).take l.toNat)

section ListExamples

/-- Example row used in concrete checks. -/
def t1 : Task := ⟨1, "Alpha", none, "pending", 1, "2024-01-01 10:00:00", "2024-01-01 10:00:00"⟩

/-- Second example row, created later than `t1`, owned by the same user. -/
def t2 : Task := ⟨2, "Beta", none, "completed", 1, "2024-02-01 10:00:00", "2024-02-01 10:00:00"⟩

/-- Example row owned by a different user. -/
def t3 : Task := ⟨3, "Gamma", none, "pending", 2, "2024-03-01 10:00:00", "2024-03-01 10:00:00"⟩

example : buildOrder (some "title:desc") = OrderBy.byField "title" true := by decide
example : buildOrder (some "unknownfield:asc") = OrderBy.noOrder := by decide
example : buildOrder none = OrderBy.byField "created_at" true := by decide
example : buildOrder (some "title") = OrderBy.byField "title" false := by decide
example :
    listTasks [t1, t2, t3] 1 none none none none =
      ListResult.ok 1 10 2 [t2, t1] := by decide
example :
    listTasks [t1, t2, t3] 1 none none (some "bogus") none =
      ListResult.ok 1 10 0 [t2, t1] := by decide
example :
    listTasks [t1, t2, t3] 1 none none (some "pending") none =
      ListResult.ok 1 10 1 [t1] := by decide
example :
    listTasks [t1, t2, t3] 1 (some "-5") none none none =
      ListResult.err 500 "Internal Server Error" listFailMsg := by decide
example :
    listTasks [t1, t2, t3] 1 none none none (some "unknownfield:asc") =
      ListResult.ok 1 10 2 [t1, t2] := by decide
example :
    listTasks [t1, t2, t3] 1 none none none (some "title:desc") =
      ListResult.ok 1 10 2 [t2, t1] := by decide

end ListExamples

/-! ### Task create (`router.post('/')`, src/routes/tasks.js lines 87-138) -/

/-- POST body. JavaScript `undefined` and `null` are both falsy wherever the
handler consumes `description`, so they collapse to `none` here. -/
structure CreateBody where
  title : Option String
  description : Option String
  status : Option String
deriving Repr, DecidableEq

/-- POST /tasks response: a 400 body, the 201 payload (echoing submitted
values plus the assigned id), or the catch-path 500 body. -/
inductive CreateResult where
  | badRequest (body : ErrBody)
  | created (success : Bool) (message : String) (taskId : Nat)
      (title : String) (description : Option String) (status : String)
  | serverError (body : ErrBody)
deriving Repr, DecidableEq

/-- Body of the 400 for a missing or empty title. -/
def titleRequiredBody : ErrBody :=
  ⟨400, "Bad Request", "Title is required and must be at least 1 character long"⟩

/-- Body of the 400 for a status outside the enum. -/
def statusEnumBody : ErrBody :=
  ⟨400, "Bad Request", "Status must be pending, in_progress, or completed"⟩

/-- POST /tasks for identity `uid`: validate title then status, insert one row
(`created_at = updated_at = now`, store-assigned `insertId`), and answer 201
from the submitted values without re-reading the row. -/
def createTask (db : Db) (uid : Nat) (now : String) (insertId : Nat)
    (b : CreateBody) : CreateResult × Db :=
  if b.title = none ∨ b.title = some "" then
    (CreateResult.badRequest titleRequiredBody, db)
  else if strTruthy b.status && !(statusEnum.contains (b.status.getD "")) then
    (CreateResult.badRequest statusEnumBody, db)
  else
    let title := b.title.getD ""
    let desc := if strTruthy b.description then b.description else none
    let st := if strTruthy b.status then b.status.getD "" else "pending"
    let row : Task := ⟨insertId, title, desc, st, uid, now, now⟩
    (CreateResult.created true "Task created successfully" insertId title desc st,
      db ++ [row])

/-! ### Task update (`router.patch('/:taskId')`, src/routes/tasks.js
lines 141-229) -/

/-- PATCH body. `title` present is a string (`some s`); for `description` the
outer option is presence (`undefined` vs supplied) and the inner option is
the supplied value (`some none` = explicit null clearing the column). -/
structure PatchBody where
  title : Option String
  description : Option (Option String)
  status : Option String
deriving Repr, DecidableEq

/-- PATCH /tasks/:taskId response: the uniform 404, a 400, the 200 payload
(the row re-read after the update, when any), or the catch-path 500. -/
inductive PatchResult where
  | notFound (body : ErrBody)
  | badRequest (body : ErrBody)
  | ok (task : Option Task)
  | serverError (body : ErrBody)
deriving Repr, DecidableEq

/-- The uniform 404 body shared by PATCH and DELETE for a task that is absent
or owned by someone else. -/
def notFoundBody : ErrBody :=
  ⟨404, "Not Found", "Task not found or you do not have permission"⟩

/-- Body of the PATCH 400 for an empty supplied title. -/
def titleLengthBody : ErrBody :=
  ⟨400, "Bad Request", "Title must be at least 1 character long"⟩

/-- Body of the PATCH 400 for a status outside the enum. -/
def invalidStatusBody : ErrBody :=
  ⟨400, "Bad Request", "Invalid status"⟩

/-- Body of the PATCH 400 when no updatable field is supplied. -/
def noFieldsBody : ErrBody :=
  ⟨400, "Bad Request", "No fields to update provided"⟩

/-- The UPDATE applied to a row: `updated_at` always refreshed, each of
title / description / status written only when present in the body. -/
def applyPatch (b : PatchBody) (now : String) (t : Task) : Task :=
  { t with
    updated_at := now
    title := b.title.getD t.title
    description := match b.description with | none => t.description | some d => d
    status := b.status.getD t.status }

/-- PATCH /tasks/:taskId for identity `uid`: ownership lookup
(`WHERE id = ? AND user_id = ?`, uniform 404 on no row), field validation in
source order, 400 when the update set is empty, else apply the UPDATE
(`WHERE id = ?`) and re-read the row by id. -/
def patchTask (db : Db) (uid taskId : Nat) (b : PatchBody) (now : String) :
    PatchResult × Db :=
  let owned := db.filter (fun t => t.id == taskId && t.user_id == uid)
  if owned.isEmpty then (PatchResult.notFound notFoundBody, db)
  else if b.title = some "" then (PatchResult.badRequest titleLengthBody, db)
  else if (match b.status with
           | some s => !(statusEnum.contains s)
           | none => false) then
    (PatchResult.badRequest invalidStatusBody, db)
  else if b.title = none ∧ b.description = none ∧ b.status = none then
    (PatchResult.badRequest noFieldsBody, db)
  else
    let db2 := db.map (fun t => if t.id == taskId then applyPatch b now t else t)
    (PatchResult.ok ((db2.filter (fun t => t.id == taskId)).head?), db2)

/-! ### Task delete (`router.delete('/:taskId')`, src/routes/tasks.js
lines 232-261) -/

/-- DELETE /tasks/:taskId response. -/
inductive DeleteResult where
  | notFound (body : ErrBody)
  | ok (message : String)
  | serverError (body : ErrBody)
deriving Repr, DecidableEq

/-- DELETE /tasks/:taskId for identity `uid`: same ownership lookup and
uniform 404 as PATCH, then `DELETE ... WHERE id = ?`. -/
def deleteTask (db : Db) (uid taskId : Nat) : DeleteResult × Db :=
  let owned := db.filter (fun t => t.id == taskId && t.user_id == uid)
  if owned.isEmpty then (DeleteResult.notFound notFoundBody, db)
  else (DeleteResult.ok "Task deleted successfully",
    db.filter (fun t => !(t.id == taskId)))

/-! ### Connection lifecycle per handler

Each handler acquires one pool connection after its body-level validation (for
POST) or right away, then runs its data-access calls. The handlers call
`conn.release()` on the success and early-return paths; the `catch` blocks
return the 500 body without releasing. `fails k` says whether the k-th
data-access call after acquisition throws. -/

/-- Connection bookkeeping for one request. -/
structure ConnOut where
  acquired : Bool
  released : Bool
deriving Repr, DecidableEq

/-- Did the listing answer with its catch-path 500? -/
def listIs500 : ListResult → Bool
  | ListResult.err _ _ _ => true
  | ListResult.ok _ _ _ _ => false

/-- GET /tasks execution: acquire, count query (call 0), row query (call 1),
release, respond; a throw lands in `catch`, which answers 500 without
releasing. An erroring row query (negative window) is the same catch path. -/
def listTasksExec (db : Db) (uid : Nat) (pageQ limitQ status sort : Option String)
    (fails : Nat → Bool) : ListResult × ConnOut :=
  if fails 0 then
    (ListResult.err 500 "Internal Server Error" listFailMsg, ⟨true, false⟩)
  else if fails 1 then
    (ListResult.err 500 "Internal Server Error" listFailMsg, ⟨true, false⟩)
  else
    let r := listTasks db uid pageQ limitQ status sort
    match r with
    | ListResult.err c e m => (ListResult.err c e m, ⟨true, false⟩)
    | r => (r, ⟨true, true⟩)

/-- Did the create answer with its catch-path 500? -/
def createIs500 : CreateResult → Bool
  | CreateResult.serverError _ => true
  | _ => false

/-- POST /tasks execution: validation happens before the connection is
acquired; then acquire, INSERT (call 0), release, respond 201. A throw lands
in `catch`, answering 500 without releasing. -/
def createTaskExec (db : Db) (uid : Nat) (now : String) (insertId : Nat)
    (b : CreateBody) (fails : Nat → Bool) : CreateResult × ConnOut :=
  match (createTask db uid now insertId b).1 with
  | CreateResult.badRequest e => (CreateResult.badRequest e, ⟨false, false⟩)
  | r =>
    if fails 0 then
      (CreateResult.serverError ⟨500, "Internal Server Error", "An unexpected error occurred"⟩,
        ⟨true, false⟩)
    else (r, ⟨true, true⟩)

/-- Did the update answer with its catch-path 500? -/
def patchIs500 : PatchResult → Bool
  | PatchResult.serverError _ => true
  | _ => false

/-- PATCH /tasks/:taskId execution: acquire, ownership SELECT (call 0),
UPDATE (call 1), re-read SELECT (call 2); the 404 and 400 early returns
release, the `catch` path answers 500 without releasing. -/
def patchTaskExec (db : Db) (uid taskId : Nat) (b : PatchBody) (now : String)
    (fails : Nat → Bool) : PatchResult × ConnOut :=
  if fails 0 then
    (PatchResult.serverError ⟨500, "Internal Server Error", "Failed to update task"⟩,
      ⟨true, false⟩)
  else
    match (patchTask db uid taskId b now).1 with
    | PatchResult.notFound e => (PatchResult.notFound e, ⟨true, true⟩)
    | PatchResult.badRequest e => (PatchResult.badRequest e, ⟨true, true⟩)
    | r =>
      if fails 1 then
        (PatchResult.serverError ⟨500, "Internal Server Error", "Failed to update task"⟩,
          ⟨true, false⟩)
      else if fails 2 then
        (PatchResult.serverError ⟨500, "Internal Server Error", "Failed to update task"⟩,
          ⟨true, false⟩)
      else (r, ⟨true, true⟩)

/-- Did the delete answer with its catch-path 500? -/
def deleteIs500 : DeleteResult → Bool
  | DeleteResult.serverError _ => true
  | _ => false

/-- DELETE /tasks/:taskId execution: acquire, ownership SELECT (call 0),
DELETE (call 1); the 404 early return releases, the `catch` path answers 500
without releasing. -/
def deleteTaskExec (db : Db) (uid taskId : Nat) (fails : Nat → Bool) :
    DeleteResult × ConnOut :=
  if fails 0 then
    (DeleteResult.serverError ⟨500, "Internal Server Error", "Failed to delete task"⟩,
      ⟨true, false⟩)
  else
    match (deleteTask db uid taskId).1 with
    | DeleteResult.notFound e => (DeleteResult.notFound e, ⟨true, true⟩)
    | r =>
      if fails 1 then
        (DeleteResult.serverError ⟨500, "Internal Server Error", "Failed to delete task"⟩,
          ⟨true, false⟩)
      else (r, ⟨true, true⟩)

section CrudExamples

example :
    createTask [] 7 "2024-01-01 00:00:00" 1 ⟨some "X", none, none⟩ =
      (CreateResult.created true "Task created successfully" 1 "X" none "pending",
        [⟨1, "X", none, "pending", 7, "2024-01-01 00:00:00", "2024-01-01 00:00:00"⟩]) := by
  decide

example :
    createTask [] 7 "n" 1 ⟨none, none, none⟩ =
      (CreateResult.badRequest titleRequiredBody, []) := by decide

example :
    createTask [] 7 "n" 1 ⟨some "X", none, some "bogus"⟩ =
      (CreateResult.badRequest statusEnumBody, []) := by decide

example :
    patchTask [t3] 1 3 ⟨some "T", none, none⟩ "n" =
      (PatchResult.notFound notFoundBody, [t3]) := by decide

example :
    patchTask [t1] 1 1 ⟨none, none, none⟩ "n" =
      (PatchResult.badRequest noFieldsBody, [t1]) := by decide

example :
    patchTask [t1] 1 1 ⟨none, some (some "d"), none⟩ "n" =
      (PatchResult.ok (some ⟨1, "Alpha", some "d", "pending", 1, "2024-01-01 10:00:00", "n"⟩),
        [⟨1, "Alpha", some "d", "pending", 1, "2024-01-01 10:00:00", "n"⟩]) := by decide

example : deleteTask [t1, t2] 1 1 = (DeleteResult.ok "Task deleted successfully", [t2]) := by
  decide

example : deleteTask [t3] 1 3 = (DeleteResult.notFound notFoundBody, [t3]) := by decide

example :
    listTasksExec [] 1 none none none none (fun k => k == 0) =
      (ListResult.err 500 "Internal Server Error" listFailMsg, ⟨true, false⟩) := by decide

end CrudExamples

/-! ### Helper lemmas -/

theorem splitChar_of_not_mem {sep : Char} {l : List Char} (h : sep ∉ l) :
    splitChar sep l = [l] := by
  induction l with
  | nil => rfl
  | cons c cs ih =>
    have hc : ¬c = sep := fun hcs => h (hcs ▸ List.mem_cons_self c cs)
    have hcs : sep ∉ cs := fun hm => h (List.mem_cons_of_mem _ hm)
    simp [splitChar, hc, ih hcs]

theorem splitChar_append_sep {sep : Char} (pre cs : List Char) (h : sep ∉ pre) :
    splitChar sep (pre ++ sep :: cs) = pre :: splitChar sep cs := by
  induction pre with
  | nil => simp [splitChar]
  | cons c p ih =>
    have hc : ¬c = sep := fun hcs => h (hcs ▸ List.mem_cons_self c p)
    have hp : sep ∉ p := fun hm => h (List.mem_cons_of_mem _ hm)
    simp only [List.cons_append, splitChar, hc, if_false, List.append_eq, ih hp]

theorem string_data_append (s t : String) : (s ++ t).data = s.data ++ t.data := by
  cases s; cases t; rfl

theorem charListLe_total : ∀ a b, charListLe a b = true ∨ charListLe b a = true := by
  intro a
  induction a with
  | nil => intro b; left; rfl
  | cons x as ih =>
    intro b
    cases b with
    | nil => right; rfl
    | cons y bs =>
      simp only [charListLe]
      by_cases h1 : x.toNat < y.toNat
      · left; simp [h1]
      · by_cases h2 : y.toNat < x.toNat
        · right; simp [h2]
        · rcases ih bs with h | h
          · left; simp [h1, h2, h]
          · right; simp [h1, h2, h]

theorem charListLe_trans :
    ∀ a b c, charListLe a b = true → charListLe b c = true → charListLe a c = true := by
  intro a
  induction a with
  | nil => intro b c _ _; rfl
  | cons x as ih =>
    intro b c hab hbc
    cases b with
    | nil => simp [charListLe] at hab
    | cons y bs =>
      cases c with
      | nil => simp [charListLe] at hbc
      | cons z cs =>
        simp only [charListLe] at hab hbc ⊢
        split_ifs at hab hbc ⊢ <;>
          first
            | rfl
            | omega
            | exact ih bs cs hab hbc

theorem taskLe_total (f : String) (d : Bool) :
    ∀ a b, taskLe f d a b = true ∨ taskLe f d b a = true := by
  intro a b
  cases d <;> simp only [taskLe, strLe, if_true, if_false, Bool.false_eq_true]
  · exact charListLe_total _ _
  · exact (charListLe_total _ _).symm

theorem taskLe_trans (f : String) (d : Bool) :
    ∀ a b c, taskLe f d a b = true → taskLe f d b c = true → taskLe f d a c = true := by
  intro a b c hab hbc
  cases d <;> simp only [taskLe, strLe, if_true, if_false, Bool.false_eq_true] at hab hbc ⊢
  · exact charListLe_trans _ _ _ hab hbc
  · exact charListLe_trans _ _ _ hbc hab

theorem mem_applyOrder {o : OrderBy} {l : List Task} {t : Task} :
    t ∈ applyOrder o l ↔ t ∈ l := by
  cases o with
  | noOrder => exact Iff.rfl
  | byField f d => exact List.mem_insertionSort _

/-! ### Claim theorems -/

/-- C3: for every task-scoped request, the authorization gate answers 401
with message "Authentication token is required" when splitting the
Authorization header on whitespace yields no second token; 403 (never 401)
with message "Invalid or expired token" when a token is present but its
verification fails; and on success the decoded user identifier is attached
and the handler runs. -/
theorem c3_auth_gate_cases (verify : String → Option Nat) (h : Option String) :
    (extractToken h = none →
      authenticateToken verify h =
        AuthResult.reject ⟨401, "Unauthorized", "Authentication token is required"⟩) ∧
    (∀ t, extractToken h = some t → verify t = none →
      authenticateToken verify h =
        AuthResult.reject ⟨403, "Forbidden", "Invalid or expired token"⟩) ∧
    (∀ t uid, extractToken h = some t → verify t = some uid →
      authenticateToken verify h = AuthResult.proceed uid) := by
  refine ⟨fun he => ?_, fun t ht hv => ?_, fun t uid ht hv => ?_⟩
  · simp [authenticateToken, he, authMissingBody]
  · simp [authenticateToken, ht, hv, authInvalidBody]
  · simp [authenticateToken, ht, hv]

/-- Verification oracle used in concrete gate checks: accepts exactly the
token "good", decoding user id 7. -/
def verifyStub : String → Option Nat :=
  fun t => if t = "good" then some 7 else none

/-- Witness for C3 at concrete headers and the `verifyStub` oracle. -/
theorem c3_witness :
    authenticateToken verifyStub (some "Bearer") =
      AuthResult.reject ⟨401, "Unauthorized", "Authentication token is required"⟩ ∧
    authenticateToken verifyStub (some "Bearer bad") =
      AuthResult.reject ⟨403, "Forbidden", "Invalid or expired token"⟩ ∧
    authenticateToken verifyStub (some "Bearer good") = AuthResult.proceed 7 :=
  ⟨(c3_auth_gate_cases verifyStub (some "Bearer")).1 (by decide),
   (c3_auth_gate_cases verifyStub (some "Bearer bad")).2.1 "bad" (by decide) (by decide),
   (c3_auth_gate_cases verifyStub (some "Bearer good")).2.2 "good" 7 (by decide) (by decide)⟩

/-- C10 (implicit): the gate never compares the scheme word to "Bearer" — its
outcome is a function of the second whitespace-separated field alone, so
"Basic t" and "Bearer t" always get identical responses, and a header with no
second token (bare "Bearer", or no header at all) always gets the 401. -/
theorem c10_scheme_ignored (verify : String → Option Nat) :
    (∀ t : String, authenticateToken verify (some ("Basic " ++ t)) =
      authenticateToken verify (some ("Bearer " ++ t))) ∧
    (∀ h1 h2 : Option String, secondField h1 = secondField h2 →
      authenticateToken verify h1 = authenticateToken verify h2) ∧
    authenticateToken verify (some "Bearer") = AuthResult.reject authMissingBody ∧
    authenticateToken verify none = AuthResult.reject authMissingBody := by
  have key : ∀ h1 h2 : Option String, secondField h1 = secondField h2 →
      authenticateToken verify h1 = authenticateToken verify h2 := by
    intro h1 h2 hsec
    unfold authenticateToken extractToken
    rw [hsec]
  refine ⟨fun t => key _ _ ?_, key, rfl, rfl⟩
  show (splitChar ' ' ("Basic " ++ t).data).get? 1 =
    (splitChar ' ' ("Bearer " ++ t).data).get? 1
  have hb : ("Basic " ++ t).data = ['B', 'a', 's', 'i', 'c'] ++ ' ' :: t.data := by
    rw [string_data_append]; rfl
  have hr : ("Bearer " ++ t).data = ['B', 'e', 'a', 'r', 'e', 'r'] ++ ' ' :: t.data := by
    rw [string_data_append]; rfl
  rw [hb, hr, splitChar_append_sep _ _ (by decide), splitChar_append_sep _ _ (by decide)]
  rfl

/-- Witness for C10: "Basic good" and "Bearer good" are answered identically. -/
theorem c10_witness :
    authenticateToken verifyStub (some "Basic good") =
      authenticateToken verifyStub (some "Bearer good") :=
  (c10_scheme_ignored verifyStub).2.1 (some "Basic good") (some "Bearer good") (by decide)

/-- C2: whenever no task with the given id is owned by the requester —
because the task does not exist, or because it exists under a different
owner — PATCH and DELETE both answer the same constant 404 body
`{404, "Not Found", "Task not found or you do not have permission"}` and
leave the table unchanged, so the two cases are indistinguishable to the
caller. -/
theorem c2_uniform_not_found (db : Db) (uid taskId : Nat) (b : PatchBody)
    (now : String) (h : ∀ t ∈ db, ¬(t.id = taskId ∧ t.user_id = uid)) :
    patchTask db uid taskId b now = (PatchResult.notFound notFoundBody, db) ∧
    deleteTask db uid taskId = (DeleteResult.notFound notFoundBody, db) ∧
    notFoundBody = ⟨404, "Not Found", "Task not found or you do not have permission"⟩ := by
  have hf : db.filter (fun t => t.id == taskId && t.user_id == uid) = [] := by
    refine List.filter_eq_nil_iff.mpr fun t ht => ?_
    simp only [Bool.and_eq_true, beq_iff_eq]
    exact fun hc => h t ht hc
  refine ⟨?_, ?_, rfl⟩
  · unfold patchTask
    rw [hf]
    rfl
  · unfold deleteTask
    rw [hf]
    rfl

/-- Witness for C2: user 1 targets task 3, which exists but is owned by
user 2; both handlers answer the uniform 404 and change nothing. -/
theorem c2_witness :
    patchTask [t3] 1 3 ⟨some "T", none, none⟩ "n" =
      (PatchResult.notFound notFoundBody, [t3]) ∧
    deleteTask [t3] 1 3 = (DeleteResult.notFound notFoundBody, [t3]) :=
  have h := c2_uniform_not_found [t3] 1 3 ⟨some "T", none, none⟩ "n" (by decide)
  ⟨h.1, h.2.1⟩

/-- C7: on a task owned by the requester, a PATCH carrying only `description`
rewrites exactly the matching rows' description and `updated_at` (title and
status untouched); a PATCH supplying no updatable field answers 400
"No fields to update provided" and leaves the table unchanged; and every
successful PATCH refreshes `updated_at` on the targeted rows whatever fields
it carried. -/
theorem c7_patch_frame (db : Db) (uid taskId : Nat) (now : String) (d : Option String)
    (h : ∃ t ∈ db, (t.id == taskId && t.user_id == uid) = true) :
    (patchTask db uid taskId ⟨none, some d, none⟩ now).2 =
      db.map (fun t => if t.id == taskId then
        { t with description := d, updated_at := now } else t) ∧
    patchTask db uid taskId ⟨none, none, none⟩ now =
      (PatchResult.badRequest noFieldsBody, db) ∧
    (∀ b r db2, patchTask db uid taskId b now = (PatchResult.ok r, db2) →
      ∀ t ∈ db2, t.id = taskId → t.updated_at = now) := by
  have hne : (db.filter (fun t => t.id == taskId && t.user_id == uid)).isEmpty = false := by
    obtain ⟨t0, ht0, hp⟩ := h
    have hmem : t0 ∈ db.filter (fun t => t.id == taskId && t.user_id == uid) :=
      List.mem_filter.2 ⟨ht0, hp⟩
    rcases hfe : db.filter (fun t => t.id == taskId && t.user_id == uid) with _ | ⟨a, l⟩
    · rw [hfe] at hmem; cases hmem
    · rw [hfe]; rfl
  refine ⟨?_, ?_, ?_⟩
  · simp only [patchTask, hne, Bool.false_eq_true, if_false, applyPatch]
    rfl
  · simp only [patchTask, hne, Bool.false_eq_true, if_false]
    rfl
  · intro b r db2 heq t ht htid
    simp only [patchTask] at heq
    split_ifs at heq <;> simp only [Prod.mk.injEq] at heq
    · cases heq.1
    · cases heq.1
    · cases heq.1
    · cases heq.1
    rcases heq with ⟨-, hdb⟩
    rw [← hdb] at ht
    rcases List.mem_map.1 ht with ⟨t', ht', hft⟩
    by_cases hc : (t'.id == taskId) = true
    · rw [← hft]
      simp [hc, applyPatch]
    · rw [← hft] at htid
      simp only [hc, Bool.false_eq_true, if_false] at htid
      exact absurd htid (by simpa using hc)

/-- Witness for C7 on a one-row table owned by the requester. -/
theorem c7_witness :
    (patchTask [t1] 1 1 ⟨none, some (some "new"), none⟩ "n").2 =
      [t1].map (fun t => if t.id == 1 then
        { t with description := some "new", updated_at := "n" } else t) ∧
    patchTask [t1] 1 1 ⟨none, none, none⟩ "n" =
      (PatchResult.badRequest noFieldsBody, [t1]) :=
  have h := c7_patch_frame [t1] 1 1 "n" (some "new") ⟨t1, by decide, by decide⟩
  ⟨h.1, h.2.1⟩

/-- C8: POST with a missing or empty title answers 400 and inserts nothing;
a status outside the enum answers 400; a non-empty title with no status
inserts a row with status "pending", null description, equal `created_at` and
`updated_at`, and the 201 payload echoes the submitted values plus the
store-assigned id — it is a function of the submitted values and the id
alone, never of a re-read of the table. -/
theorem c8_create_rules (db db2 : Db) (uid : Nat) (now : String) (insertId : Nat)
    (dsc st : Option String) (title : String) (b : CreateBody) :
    createTask db uid now insertId ⟨none, dsc, st⟩ =
      (CreateResult.badRequest titleRequiredBody, db) ∧
    createTask db uid now insertId ⟨some "", dsc, st⟩ =
      (CreateResult.badRequest titleRequiredBody, db) ∧
    (∀ s, title ≠ "" → s ≠ "" → statusEnum.contains s = false →
      createTask db uid now insertId ⟨some title, dsc, some s⟩ =
        (CreateResult.badRequest statusEnumBody, db)) ∧
    (title ≠ "" →
      createTask db uid now insertId ⟨some title, none, none⟩ =
        (CreateResult.created true "Task created successfully" insertId title none "pending",
          db ++ [⟨insertId, title, none, "pending", uid, now, now⟩])) ∧
    (createTask db uid now insertId b).1 = (createTask db2 uid now insertId b).1 := by
  refine ⟨?_, ?_, ?_, ?_, ?_⟩
  · simp [createTask]
  · simp [createTask]
  · intro s ht hs hc
    have hc2 : s ∉ statusEnum := by simpa using hc
    simp [createTask, ht, hs, hc2, strTruthy]
  · intro ht
    simp [createTask, ht, strTruthy]
  · unfold createTask
    split_ifs <;> rfl

/-- Witness for C8: a concrete successful create and a rejected status. -/
theorem c8_witness :
    createTask [] 7 "now" 1 ⟨some "X", none, none⟩ =
      (CreateResult.created true "Task created successfully" 1 "X" none "pending",
        [⟨1, "X", none, "pending", 7, "now", "now"⟩]) ∧
    createTask [] 7 "now" 1 ⟨some "X", none, some "bogus"⟩ =
      (CreateResult.badRequest statusEnumBody, []) :=
  have h := c8_create_rules [] [t1] 7 "now" 1 none none "X" ⟨some "X", none, none⟩
  ⟨h.2.2.2.1 (by decide), h.2.2.1 "bogus" (by decide) (by decide) (by decide)⟩

/-- C1: whatever the page, limit, status and sort parameters, every task in
the listing response belongs to the requesting identity, and the owner id
bound into both the row query and the count query is the identity's user id
in first position — never a caller-supplied value. -/
theorem c1_listing_owner_scoped (db : Db) (uid : Nat)
    (pageQ limitQ status sort : Option String) :
    (∀ p l tot ts, listTasks db uid pageQ limitQ status sort = ListResult.ok p l tot ts →
      ∀ t ∈ ts, t.user_id = uid) ∧
    (∀ limit offset, (buildListParams uid status limit offset).get? 0 =
      some (SqlParam.pNat uid)) ∧
    (buildCountParams uid status).get? 0 = some (SqlParam.pNat uid) := by
  refine ⟨?_, ?_, ?_⟩
  · intro p l tot ts heq t ht
    simp only [listTasks] at heq
    split at heq
    · cases heq
    · injection heq with h1 h2 h3 h4
      rw [← h4] at ht
      have ht2 : t ∈ listedRows db uid status sort :=
        List.mem_of_mem_drop (List.mem_of_mem_take ht)
      have ht3 : t ∈ ownedRows db uid status := by
        unfold listedRows at ht2
        exact mem_applyOrder.1 ht2
      have hcond := (List.mem_filter.1 ht3).2
      simp only [Bool.and_eq_true, beq_iff_eq] at hcond
      exact hcond.1
  · intro limit offset
    unfold buildListParams
    split <;> rfl
  · unfold buildCountParams
    split <;> rfl

/-- Witness for C1 at a concrete table holding a foreign-owned task. -/
theorem c1_witness : Task.user_id t2 = 1 :=
  (c1_listing_owner_scoped [t1, t2, t3] 1 none none none none).1 1 10 2 [t2, t1]
    (by decide) t2 (by decide)

/-- C4 (code bug): with one "pending" task owned by user 1, `status=bogus`
returns the very same rows as no status parameter but a different total —
the handler leaves the invalid status out of the row query yet binds it into
the count query, contradicting the claim that neither query applies the
filter. -/
theorem c4_count_filter_bug :
    listTasks [t1, t2, t3] 1 none none (some "bogus") none =
      ListResult.ok 1 10 0 [t2, t1] ∧
    listTasks [t1, t2, t3] 1 none none none none =
      ListResult.ok 1 10 2 [t2, t1] ∧
    buildListQuery (some "bogus") none =
      "SELECT * FROM tasks WHERE user_id = ? ORDER BY created_at DESC LIMIT ? OFFSET ?" ∧
    buildCountQuery (some "bogus") =
      "SELECT COUNT(*) as total FROM tasks WHERE user_id = ? AND status = ?" ∧
    countTotal [t1, t2, t3] 1 (some "bogus") ≠ countTotal [t1, t2, t3] 1 none := by
  decide

theorem buildOrder_valid (f dir : String) (hni : ':' ∉ f.data) (hne : f.data ≠ [])
    (hmem : sortFields.contains f = true) (hdir : ':' ∉ dir.data) :
    buildOrder (some (f ++ ":" ++ dir)) = OrderBy.byField f (dir == "desc") := by
  have hd : (f ++ ":" ++ dir).data = f.data ++ ':' :: dir.data := by
    rw [string_data_append, string_data_append]
    simp
  have hne2 : (f ++ ":" ++ dir) ≠ "" := by
    intro he
    have h2 := congrArg String.data he
    rw [hd] at h2
    simp at h2
  have hfne : ¬f = "" := by
    intro he
    apply hne
    rw [he]
  show (if (f ++ ":" ++ dir) = "" then OrderBy.byField "created_at" true
    else
      if String.mk ((splitChar ':' (f ++ ":" ++ dir).data).headD []) ≠ "" &&
          sortFields.contains (String.mk ((splitChar ':' (f ++ ":" ++ dir).data).headD [])) then
        OrderBy.byField (String.mk ((splitChar ':' (f ++ ":" ++ dir).data).headD []))
          (((splitChar ':' (f ++ ":" ++ dir).data).get? 1).map String.mk == some "desc")
      else OrderBy.noOrder) = OrderBy.byField f (dir == "desc")
  rw [if_neg hne2, hd, splitChar_append_sep _ _ hni]
  show (if f ≠ "" && sortFields.contains f then
      OrderBy.byField f (((splitChar ':' dir.data).get? 0).map String.mk == some "desc")
    else OrderBy.noOrder) = OrderBy.byField f (dir == "desc")
  rw [if_pos (by simp [hfne, List.elem_iff.1 hmem]), splitChar_of_not_mem hdir]
  rfl

/-- C5 counterexample: `sort=unknownfield:asc` does not fall back to the
default `created_at DESC` ordering — the handler drops the ORDER BY clause
entirely, so both the generated SQL and the response order differ from the
no-sort default. -/
theorem c5_counterexample :
    buildOrder (some "unknownfield:asc") = OrderBy.noOrder ∧
    buildOrder none = OrderBy.byField "created_at" true ∧
    buildOrder (some "unknownfield:asc") ≠ buildOrder none ∧
    buildListQuery none (some "unknownfield:asc") ≠ buildListQuery none none ∧
    listTasks [t1, t2, t3] 1 none none none (some "unknownfield:asc") =
      ListResult.ok 1 10 2 [t1, t2] ∧
    listTasks [t1, t2, t3] 1 none none none none =
      ListResult.ok 1 10 2 [t2, t1] := by
  decide

/-- C5 amended: a `field:direction` sort with an allow-listed field orders
the results by that field, descending exactly when the direction part is the
literal "desc" and ascending otherwise (direction omitted included); an
absent sort parameter means `created_at` descending; but a field outside the
allow-list drops the ORDER BY clause entirely — rows come back in
backend-determined (storage) order rather than the default ordering — still
without error. -/
theorem c5_sort_rules :
    buildOrder none = OrderBy.byField "created_at" true ∧
    (∀ f ∈ sortFields, buildOrder (some f) = OrderBy.byField f false) ∧
    (∀ f dir : String, f ∈ sortFields → ':' ∉ dir.data →
      buildOrder (some (f ++ ":" ++ dir)) = OrderBy.byField f (dir == "desc")) ∧
    (∀ s : String, s ≠ "" → String.mk ((splitChar ':' s.data).headD []) ∉ sortFields →
      buildOrder (some s) = OrderBy.noOrder) ∧
    (∀ db uid pageQ limitQ status sort f d p l tot ts,
      buildOrder sort = OrderBy.byField f d →
      listTasks db uid pageQ limitQ status sort = ListResult.ok p l tot ts →
      List.Sorted (fun a b => taskLe f d a b = true) ts) := by
  refine ⟨by decide, by decide, ?_, ?_, ?_⟩
  · intro f dir hf hdir
    have hf2 : f = "title" ∨ f = "status" ∨ f = "created_at" ∨ f = "updated_at" := by
      simpa [sortFields] using hf
    rcases hf2 with rfl | rfl | rfl | rfl <;>
      exact buildOrder_valid _ dir (by decide) (by decide) (by decide) hdir
  · intro s hs hmem
    have hmem2 : String.mk ((splitChar ':' s.data).head?.getD []) ∉ sortFields := by
      rw [← List.headD_eq_head?_getD]
      exact hmem
    show (if s = "" then OrderBy.byField "created_at" true
      else
        if String.mk ((splitChar ':' s.data).headD []) ≠ "" &&
            sortFields.contains (String.mk ((splitChar ':' s.data).headD [])) then
          OrderBy.byField (String.mk ((splitChar ':' s.data).headD []))
            (((splitChar ':' s.data).get? 1).map String.mk == some "desc")
        else OrderBy.noOrder) = OrderBy.noOrder
    rw [if_neg hs, if_neg (by simp [hmem2])]
  · intro db uid pageQ limitQ status sort f d p l tot ts hb heq
    simp only [listTasks] at heq
    split at heq
    · cases heq
    · injection heq with h1 h2 h3 h4
      rw [← h4]
      have hlr : listedRows db uid status sort =
          (ownedRows db uid status).insertionSort (fun a b => taskLe f d a b = true) := by
        unfold listedRows
        rw [hb]
        rfl
      rw [hlr]
      haveI : IsTotal Task (fun a b => taskLe f d a b = true) := ⟨taskLe_total f d⟩
      haveI : IsTrans Task (fun a b => taskLe f d a b = true) := ⟨taskLe_trans f d⟩
      exact (List.sorted_insertionSort _ _).sublist
        ((List.take_sublist _ _).trans (List.drop_sublist _ _))

/-- Witness for C5 at concrete sorts: a valid descending sort, a dropped
unknown-field sort, and sortedness of a concrete default-ordered response. -/
theorem c5_witness :
    buildOrder (some "title:desc") = OrderBy.byField "title" ("desc" == "desc") ∧
    buildOrder (some "unknownfield:asc") = OrderBy.noOrder ∧
    List.Sorted (fun a b => taskLe "created_at" true a b = true) [t2, t1] :=
  ⟨c5_sort_rules.2.2.1 "title" "desc" (by decide) (by decide),
   c5_sort_rules.2.2.2.1 "unknownfield:asc" (by decide) (by decide),
   c5_sort_rules.2.2.2.2 [t1, t2, t3] 1 none none none none "created_at" true 1 10 2
     [t2, t1] (by decide) (by decide)⟩

/-- C6 counterexample: `page=-5` is kept by `parseInt(page) || 1` (negative
numbers are truthy), producing offset -60 and a store error, unlike
`page=1`. -/
theorem c6_counterexample :
    parsedPage (some "-5") = -5 ∧
    listTasks [] 1 (some "-5") none none none =
      ListResult.err 500 "Internal Server Error" listFailMsg ∧
    listTasks [] 1 (some "1") none none none = ListResult.ok 1 10 0 [] ∧
    listTasks [] 1 (some "-5") none none none ≠
      listTasks [] 1 (some "1") none none none := by
  decide

/-- C6 amended: `page` and `limit` parse tolerantly — a non-numeric or zero
value behaves exactly like an absent parameter (defaults 1 and 10), and the
row window starts at `offset = (page - 1) * limit`; but a negative value is
kept as parsed (page=-5 stays -5, giving a negative offset the store
rejects) instead of collapsing to the default. -/
theorem c6_paging_rules :
    (∀ db uid limitQ status sort s, parseIntJS s = none ∨ parseIntJS s = some 0 →
      listTasks db uid (some s) limitQ status sort =
        listTasks db uid none limitQ status sort) ∧
    (∀ db uid pageQ status sort s, parseIntJS s = none ∨ parseIntJS s = some 0 →
      listTasks db uid pageQ (some s) status sort =
        listTasks db uid pageQ none status sort) ∧
    parsedPage (some "abc") = 1 ∧ parsedPage (some "0") = 1 ∧
    parsedPage (some "-5") = -5 ∧
    parsedLimit (some "xyz") = 10 ∧ parsedLimit (some "0") = 10 ∧
    parsedLimit (some "-5") = -5 ∧
    (∀ db uid pageQ limitQ status sort,
      0 ≤ parsedLimit limitQ → 0 ≤ (parsedPage pageQ - 1) * parsedLimit limitQ →
      listTasks db uid pageQ limitQ status sort =
        ListResult.ok (parsedPage pageQ) (parsedLimit limitQ) (countTotal db uid status)
          (((listedRows db uid status sort).drop
              ((parsedPage pageQ - 1) * parsedLimit limitQ).toNat).take
            (parsedLimit limitQ).toNat)) := by
  refine ⟨?_, ?_, by decide, by decide, by decide, by decide, by decide, by decide, ?_⟩
  · intro db uid limitQ status sort s hs
    have hp : parsedPage (some s) = parsedPage none := by
      rcases hs with hs | hs <;> simp [parsedPage, jsIntOr, hs]
    unfold listTasks
    rw [hp]
  · intro db uid pageQ status sort s hs
    have hl : parsedLimit (some s) = parsedLimit none := by
      rcases hs with hs | hs <;> simp [parsedLimit, jsIntOr, hs]
    unfold listTasks
    rw [hl]
  · intro db uid pageQ limitQ status sort h1 h2
    unfold listTasks
    rw [if_neg]
    push_neg
    exact ⟨by omega, by omega⟩

/-- Witness for C6: `page=abc` and `limit=0` each behave like the absent
parameter on a concrete table. -/
theorem c6_witness :
    listTasks [t1, t2, t3] 1 (some "abc") none none none =
      listTasks [t1, t2, t3] 1 none none none none ∧
    listTasks [t1, t2, t3] 1 none (some "0") none none =
      listTasks [t1, t2, t3] 1 none none none none ∧
    listTasks [t1, t2, t3] 1 none none none none =
      ListResult.ok (parsedPage none) (parsedLimit none) (countTotal [t1, t2, t3] 1 none)
        (((listedRows [t1, t2, t3] 1 none none).drop
            ((parsedPage none - 1) * parsedLimit none).toNat).take
          (parsedLimit none).toNat) :=
  ⟨c6_paging_rules.1 [t1, t2, t3] 1 none none none "abc" (Or.inl (by decide)),
   c6_paging_rules.2.1 [t1, t2, t3] 1 none none none "0" (Or.inr (by decide)),
   c6_paging_rules.2.2.2.2.2.2.2.2 [t1, t2, t3] 1 none none none none
     (by decide) (by decide)⟩

/-- C9 counterexample: a data-access throw after acquisition leaves the
connection unreleased — the GET count query failing, and the PATCH update
query failing, both exit through `catch` with the connection still held. -/
theorem c9_counterexample :
    listTasksExec [] 1 none none none none (fun k => k == 0) =
      (ListResult.err 500 "Internal Server Error" listFailMsg, ⟨true, false⟩) ∧
    patchTaskExec [t1] 1 1 ⟨none, some (some "d"), none⟩ "n" (fun k => k == 1) =
      (PatchResult.serverError ⟨500, "Internal Server Error", "Failed to update task"⟩,
        ⟨true, false⟩) := by
  decide

theorem createTask_ne_serverError (db : Db) (uid : Nat) (now : String) (insertId : Nat)
    (b : CreateBody) (e : ErrBody) :
    (createTask db uid now insertId b).1 ≠ CreateResult.serverError e := by
  simp only [createTask]
  split_ifs <;> simp

theorem patchTask_ne_serverError (db : Db) (uid taskId : Nat) (b : PatchBody)
    (now : String) (e : ErrBody) :
    (patchTask db uid taskId b now).1 ≠ PatchResult.serverError e := by
  simp only [patchTask]
  split_ifs <;> simp

theorem deleteTask_ne_serverError (db : Db) (uid taskId : Nat) (e : ErrBody) :
    (deleteTask db uid taskId).1 ≠ DeleteResult.serverError e := by
  simp only [deleteTask]
  split_ifs <;> simp

/-- C9 amended: every handler releases its acquired connection on the
success, validation-failure and not-found exit paths, but none of the catch
paths does — the connection is released exactly when it was acquired and the
handler did not answer its catch-path 500. -/
theorem c9_release_rules :
    (∀ db uid pageQ limitQ status sort fails,
      ((listTasksExec db uid pageQ limitQ status sort fails).2).released =
        (((listTasksExec db uid pageQ limitQ status sort fails).2).acquired &&
          !(listIs500 (listTasksExec db uid pageQ limitQ status sort fails).1))) ∧
    (∀ db uid now insertId b fails,
      ((createTaskExec db uid now insertId b fails).2).released =
        (((createTaskExec db uid now insertId b fails).2).acquired &&
          !(createIs500 (createTaskExec db uid now insertId b fails).1))) ∧
    (∀ db uid taskId b now fails,
      ((patchTaskExec db uid taskId b now fails).2).released =
        (((patchTaskExec db uid taskId b now fails).2).acquired &&
          !(patchIs500 (patchTaskExec db uid taskId b now fails).1))) ∧
    (∀ db uid taskId fails,
      ((deleteTaskExec db uid taskId fails).2).released =
        (((deleteTaskExec db uid taskId fails).2).acquired &&
          !(deleteIs500 (deleteTaskExec db uid taskId fails).1))) := by
  refine ⟨?_, ?_, ?_, ?_⟩
  · intro db uid pageQ limitQ status sort fails
    simp only [listTasksExec]
    split_ifs <;>
      first
        | rfl
        | (cases hr : listTasks db uid pageQ limitQ status sort <;> simp [listIs500])
  · intro db uid now insertId b fails
    simp only [createTaskExec]
    cases hr : (createTask db uid now insertId b).1 <;>
      first
        | rfl
        | exact absurd hr (createTask_ne_serverError db uid now insertId b _)
        | (split_ifs <;> simp [createIs500])
  · intro db uid taskId b now fails
    simp only [patchTaskExec]
    split_ifs <;>
      first
        | rfl
        | (cases hr : (patchTask db uid taskId b now).1 <;>
            first
              | rfl
              | exact absurd hr (patchTask_ne_serverError db uid taskId b now _))
  · intro db uid taskId fails
    simp only [deleteTaskExec]
    split_ifs <;>
      first
        | rfl
        | (cases hr : (deleteTask db uid taskId).1 <;>
            first
              | rfl
              | exact absurd hr (deleteTask_ne_serverError db uid taskId _))

end NotionTasks
